import Mathlib

/-!
Verification of the apnger adaptive export optimization engine
(`src/shared/processor.ts`): filter-chain construction, frame-budget
resampling, the two-pass palette codec, the bounded size-optimization
loops for Discord sticker/emote, the export orchestrator's per-platform
result collection, and the VRChat sprite-sheet geometry.

Numbers are embedded exactly: JavaScript floats that hold exact values in
the program (durations, fps, scale factors such as 0.88) are rationals,
integer quantities are `Int`/`Nat`.  `Math.floor` is `Int.floor`,
`Math.round` is floor of `x + 1/2` (round half toward +∞), and the
JavaScript `x || d` default on numbers substitutes `d` exactly when `x`
is zero.  The comma-joined ffmpeg filter text is embedded as a list of
stages, one constructor per stage syntax produced by the source, carrying
exactly the parameters the source interpolates into the text; rendering
that list to text is injective, so equality of stage lists coincides with
equality of the produced filter-chain text.
-/

namespace Apnger

/-- JavaScript `Math.round` on an exact rational: round half toward +∞. -/
def jsRound (q : ℚ) : ℤ := ⌊q + 1/2⌋

/-- JavaScript `x || d` for a number `x`: the default `d` replaces a zero value. -/
def orDefault (v d : ℚ) : ℚ := if v = 0 then d else v

/-- Whether `pat` begins the char list `s`. -/
def charsBegin : List Char → List Char → Bool
  | [], _ => true
  | _ :: _, [] => false
  | p :: ps, c :: cs => p == c && charsBegin ps cs

/-- Whether `pat` occurs as a contiguous substring of `s`. -/
def charsContain : List Char → List Char → Bool
  | [], pat => pat.isEmpty
  | c :: rest, pat => charsBegin pat (c :: rest) || charsContain rest pat

/-- JavaScript `s.includes(pat)`. -/
def strContains (s pat : String) : Bool := charsContain s.toList pat.toList

/-- JavaScript `s.toLowerCase()` (the sources apply it to ASCII hex color
strings). -/
def jsToLower (s : String) : String := ⟨s.toList.map Char.toLower⟩

/-- Replace the first occurrence of `pat` in `s` by `rep`. -/
def replaceFirstChars : List Char → List Char → List Char → List Char
  | [], _, _ => []
  | c :: rest, pat, rep =>
    if charsBegin pat (c :: rest) then rep ++ List.drop pat.length (c :: rest)
    else c :: replaceFirstChars rest pat rep

/-- JavaScript `s.replace(pat, rep)` with a string pattern: replaces only
the first occurrence. -/
def jsReplaceFirst (s pat rep : String) : String :=
  ⟨replaceFirstChars s.toList pat.toList rep.toList⟩

/-- Probed source metadata (the `VideoInput` produced by `getVideoInfo`):
integral rounded fps, pixel dimensions, duration in seconds. -/
structure VideoInput where
  fps : ℤ
  width : ℤ
  height : ℤ
  duration : ℚ
deriving DecidableEq

/-- `options.chromaKey`: enabled flag, hex color string, similarity and blend. -/
structure ChromaKeyOptions where
  enabled : Bool
  color : String
  similarity : ℚ
  blend : ℚ
deriving DecidableEq

/-- `options.crop`: a crop region in source pixel coordinates. -/
structure CropOptions where
  x : ℤ
  y : ℤ
  width : ℤ
  height : ℤ
deriving DecidableEq

/-- The slice of `ProcessingOptions` consumed by `buildFilterChain`. -/
structure ProcessingOptions where
  chromaKey : Option ChromaKeyOptions
  crop : Option CropOptions
deriving DecidableEq

/-- The dominant key channel selected for the despill stage. -/
inductive DespillType
  | green
  | blue
deriving DecidableEq

/-- One stage of the comma-joined ffmpeg filter-chain text, carrying exactly
the parameters the source interpolates into that stage's text:
`chromakey=color:similarity:blend`, `despill=type=…:mix=0.5:expand=0`,
`eq=gamma=1.1:saturation=1.05`, `crop=w:h:x:y`,
`scale=w:h:force_original_aspect_ratio=increase`, `crop=w:h`, plain
`scale=w:h`, and `fps=rate`. -/
inductive FilterStage
  | chromakeyStage (color : String) (similarity blend : ℚ)
  | despillStage (t : DespillType)
  | eqStage
  | cropStage (w h x y : ℤ)
  | scaleFillStage (w h : ℤ)
  | cropExactStage (w h : ℤ)
  | scaleExactStage (w h : ℤ)
  | fpsStage (rate : ℚ)
deriving DecidableEq

/-- The chroma-key block of `buildFilterChain` (processor.ts lines 355–376),
also reproduced verbatim in `generatePreview`, `exportVRCSpriteSheet` and
`exportWebGIF`: a `chromakey` stage with `|| 0.3` / `|| 0.1` default
substitution on similarity/blend, then a despill stage selected by
substring tests on the lower-cased color, then the fixed `eq` stage. -/
def chromaFilters (ck : Option ChromaKeyOptions) : List FilterStage :=
  match ck with
  | none => []
  | some c =>
    if c.enabled then
      let color := jsReplaceFirst c.color "#" "0x"
      let similarity := orDefault c.similarity (3/10)
      let blend := orDefault c.blend (1/10)
      let colorLower := jsToLower c.color
      [FilterStage.chromakeyStage color similarity blend]
      ++ (if strContains colorLower "00ff00" || strContains colorLower "0f0" then
            [FilterStage.despillStage DespillType.green]
          else if strContains colorLower "0000ff" || strContains colorLower "00f" then
            [FilterStage.despillStage DespillType.blue]
          else [])
      ++ [FilterStage.eqStage]
    else []

/-- The custom-crop block of `buildFilterChain` (lines 378–381): the caller's
crop values are pushed verbatim, with no validation. -/
def cropFilters (crop : Option CropOptions) : List FilterStage :=
  match crop with
  | none => []
  | some c => [FilterStage.cropStage c.width c.height c.x c.y]

/-- The frame-rate block of `buildFilterChain` (lines 388–405): when a
frame-count budget is in effect (`maxFrames` truthy) and the probed fps and
duration are positive, a source whose `floor(duration * fps)` exceeds the
budget is resampled to `min(targetFps, maxFrames / duration)`; every other
case emits `fps=targetFps`. -/
def fpsFilters (input : VideoInput) (targetFps : ℚ) (maxFrames : Option ℕ) :
    List FilterStage :=
  match maxFrames with
  | some m =>
    if 0 < m ∧ 0 < input.fps ∧ 0 < input.duration then
      -- totalFrames = Math.floor(duration * fps); effectiveFps = maxFrames / duration
      if (m : ℤ) < ⌊input.duration * (input.fps : ℚ)⌋ then
        [FilterStage.fpsStage (min targetFps ((m : ℚ) / input.duration))]
      else
        [FilterStage.fpsStage targetFps]
    else
      [FilterStage.fpsStage targetFps]
  | none => [FilterStage.fpsStage targetFps]

/-- `buildFilterChain` (lines 345–408): chroma-key block, custom crop,
scale-to-fill plus exact center crop, then the frame-rate stage. -/
def buildFilterChain (input : VideoInput) (targetWidth targetHeight : ℤ)
    (targetFps : ℚ) (options : ProcessingOptions) (maxFrames : Option ℕ) :
    List FilterStage :=
  chromaFilters options.chromaKey
  ++ cropFilters options.crop
  ++ [FilterStage.scaleFillStage targetWidth targetHeight,
      FilterStage.cropExactStage targetWidth targetHeight]
  ++ fpsFilters input targetFps maxFrames

/-- The single-frame filter chain of `generatePreview` (lines 112–142):
identical to `buildFilterChain` but without any fps stage. -/
def previewFilterChain (specWidth specHeight : ℤ) (options : ProcessingOptions) :
    List FilterStage :=
  chromaFilters options.chromaKey
  ++ cropFilters options.crop
  ++ [FilterStage.scaleFillStage specWidth specHeight,
      FilterStage.cropExactStage specWidth specHeight]

/-- One parsed `v:0` stream of the ffprobe JSON consumed by `getVideoInfo`:
pixel dimensions, `r_frame_rate` as a fraction, and duration. -/
structure ProbeStream where
  width : ℤ
  height : ℤ
  fpsNum : ℤ
  fpsDen : ℤ
  duration : ℚ
deriving DecidableEq

/-- The metadata-extraction logic of `getVideoInfo` (lines 54–81), after the
JSON has been parsed: the only rejection is a missing video stream; the
first stream's rate fraction is divided out and rounded, and its duration is
taken as-is — zero fps or zero duration is accepted unchecked. -/
def getVideoInfo (streams : List ProbeStream) : Except String VideoInput :=
  match streams with
  | [] => Except.error "No video stream found in file"
  | s :: _ =>
    Except.ok { fps := jsRound ((s.fpsNum : ℚ) / (s.fpsDen : ℚ)),
                width := s.width, height := s.height, duration := s.duration }

/-- The mutable working state of one size-optimization run: frame rate,
dimensions, palette color count, and (sticker only) the APNG compression
level, which the ladder never touches. -/
structure EncodeParams where
  fps : ℤ
  width : ℤ
  height : ℤ
  colors : ℤ
  compressionLevel : ℤ
deriving DecidableEq

/-- The Discord-sticker degradation step (`exportDiscordSticker`,
lines 513–531): the if/else-if ladder run once between attempts. -/
def stickerDegrade (p : EncodeParams) : EncodeParams :=
  if 8 < p.fps then { p with fps := p.fps - 2 }
  else if 96 < p.colors then { p with colors := max 64 (p.colors - 32) }
  else if 6 < p.fps then { p with fps := p.fps - 1 }
  else if 240 < p.width ∨ 240 < p.height then
    { p with width := jsRound ((p.width : ℚ) * (88/100)),
             height := jsRound ((p.height : ℚ) * (88/100)) }
  else if 64 < p.colors then { p with colors := 64 }
  else if 4 < p.fps then { p with fps := p.fps - 1 }
  else
    { p with width := jsRound ((p.width : ℚ) * (82/100)),
             height := jsRound ((p.height : ℚ) * (82/100)) }

/-- The Discord-emote degradation step (`exportDiscordEmote`,
lines 606–620). -/
def emoteDegrade (p : EncodeParams) : EncodeParams :=
  if 10 < p.fps then { p with fps := p.fps - 2 }
  else if 64 < p.colors then { p with colors := 64 }
  else if 96 < p.width ∨ 96 < p.height then
    { p with width := jsRound ((p.width : ℚ) * (9/10)),
             height := jsRound ((p.height : ℚ) * (9/10)) }
  else if 8 < p.fps then { p with fps := p.fps - 1 }
  else
    { p with width := jsRound ((p.width : ℚ) * (85/100)),
             height := jsRound ((p.height : ℚ) * (85/100)) }

/-- Seed of the sticker run (lines 462–467): fps capped at 10, the spec's
target dimensions, 192 colors, compression level 9. -/
def stickerStart (inputFps specWidth specHeight : ℤ) : EncodeParams :=
  { fps := min inputFps 10, width := specWidth, height := specHeight,
    colors := 192, compressionLevel := 9 }

/-- Seed of the emote run (lines 558–562): fps capped at 15, the spec's
target dimensions, 128 colors; the emote loop has no compression parameter,
so that field is inert. -/
def emoteStart (inputFps specWidth specHeight : ℤ) : EncodeParams :=
  { fps := min inputFps 15, width := specWidth, height := specHeight,
    colors := 128, compressionLevel := 0 }

/-- The `while (attempt < maxAttempts)` size-optimization loop shared by the
two Discord exports: each attempt asks the (arbitrary, stubbed) encoder for
the byte size it produces from the current parameters, succeeds when that
size fits the byte budget, and otherwise degrades the parameters and
retries.  `fuel` is the number of attempts still allowed; the result is the
final value of `attempt` paired with whether the budget was met. -/
def sizeLoop (encoder : ℕ → EncodeParams → ℕ) (maxSize : ℕ)
    (degrade : EncodeParams → EncodeParams) :
    EncodeParams → ℕ → ℕ → ℕ × Bool
  | _, attempt, 0 => (attempt, false)
  | p, attempt, fuel + 1 =>
    if encoder (attempt + 1) p ≤ maxSize then (attempt + 1, true)
    else sizeLoop encoder maxSize degrade (degrade p) (attempt + 1) fuel

/-- `maxAttempts` of `exportDiscordSticker` (line 470). -/
def stickerMaxAttempts : ℕ := 15

/-- `maxAttempts` of `exportDiscordEmote` (line 565). -/
def emoteMaxAttempts : ℕ := 10

/-- The error thrown by `exportDiscordSticker` when its attempts are
exhausted (line 542, with `maxAttempts = 15` interpolated). -/
def stickerFailMessage : String :=
  "Discord sticker could not be optimized to 512KB limit after 15 attempts. Try a shorter video or lower quality source."

/-- Outcome of `exportDiscordSticker` (lines 452–543): runs the loop with
the sticker ladder and 15 attempts; exhaustion throws the descriptive
error. -/
def exportDiscordSticker (encoder : ℕ → EncodeParams → ℕ) (maxSize : ℕ)
    (start : EncodeParams) : Except String Unit :=
  match sizeLoop encoder maxSize stickerDegrade start 0 stickerMaxAttempts with
  | (_, true) => Except.ok ()
  | (_, false) => Except.error stickerFailMessage

/-- Outcome of `exportDiscordEmote` (lines 548–632): runs the loop with the
emote ladder and 10 attempts; exhaustion only logs a warning (lines
630–631), so the export completes without error either way. -/
def exportDiscordEmote (encoder : ℕ → EncodeParams → ℕ) (maxSize : ℕ)
    (start : EncodeParams) : Except String Unit :=
  let _run := sizeLoop encoder maxSize emoteDegrade start 0 emoteMaxAttempts
  Except.ok ()

/-- The per-platform entry pushed by `processVideo` (lines 260–280): size
and path are dropped, keeping the success flag and the error message. -/
structure ExportResult where
  format : String
  success : Bool
  error : Option String
deriving DecidableEq

/-- How `processVideo`'s per-format try/catch turns one export outcome into
its `ExportResult` (lines 260–280). -/
def platformResult (name : String) (run : Except String Unit) : ExportResult :=
  match run with
  | Except.ok _ => { format := name, success := true, error := none }
  | Except.error e => { format := name, success := false, error := some e }

/-- The format loop of `processVideo` (lines 211–281): each enabled format
is exported inside its own try/catch and contributes exactly one result. -/
def processVideo (runs : List (String × Except String Unit)) : List ExportResult :=
  runs.map (fun r => platformResult r.1 r.2)

/-- The `palettegen` stage appended in pass 1 of each export: its
`max_colors` parameter, and whether the source text carries
`stats_mode=diff`. -/
structure PalettegenStage where
  maxColors : ℤ
  statsDiff : Bool
deriving DecidableEq

/-- `exportTwitch` pass 1 (line 429): `palettegen=max_colors=256:stats_mode=diff`. -/
def twitchPalettegenStage : PalettegenStage := { maxColors := 256, statsDiff := true }

/-- `exportDiscordSticker` pass 1 (line 483): `palettegen=max_colors=colors`,
with no `stats_mode` parameter. -/
def stickerPalettegenStage (colors : ℤ) : PalettegenStage :=
  { maxColors := colors, statsDiff := false }

/-- `exportDiscordEmote` pass 1 (line 578): `palettegen=max_colors=colors:stats_mode=diff`. -/
def emotePalettegenStage (colors : ℤ) : PalettegenStage :=
  { maxColors := colors, statsDiff := true }

/-- `export7TV` pass 1 (line 653): `palettegen=max_colors=256:stats_mode=diff`. -/
def sevenTVPalettegenStage : PalettegenStage := { maxColors := 256, statsDiff := true }

/-- `exportWebGIF` pass 1 (line 867): `palettegen=max_colors=256:stats_mode=diff`. -/
def webGifPalettegenStage : PalettegenStage := { maxColors := 256, statsDiff := true }

/-- The filter chain of `exportTwitch` pass 1 (`paletteFilter`, line 425). -/
def twitchPassOneChain (input : VideoInput) (w h : ℤ) (targetFps : ℚ)
    (options : ProcessingOptions) (maxFrames : Option ℕ) : List FilterStage :=
  buildFilterChain input w h targetFps options maxFrames

/-- The filter chain of `exportTwitch` pass 2 (`gifFilter`, line 436). -/
def twitchPassTwoChain (input : VideoInput) (w h : ℤ) (targetFps : ℚ)
    (options : ProcessingOptions) (maxFrames : Option ℕ) : List FilterStage :=
  buildFilterChain input w h targetFps options maxFrames

/-- The filter chain of `exportDiscordSticker` pass 1 (`paletteFilter`,
line 479), built from the current attempt's parameters. -/
def stickerPassOneChain (input : VideoInput) (options : ProcessingOptions)
    (p : EncodeParams) : List FilterStage :=
  buildFilterChain input p.width p.height (p.fps : ℚ) options none

/-- The filter chain of `exportDiscordSticker` pass 2 (`apngFilter`,
line 490). -/
def stickerPassTwoChain (input : VideoInput) (options : ProcessingOptions)
    (p : EncodeParams) : List FilterStage :=
  buildFilterChain input p.width p.height (p.fps : ℚ) options none

/-- The filter chain of `exportDiscordEmote` pass 1 (`paletteFilter`,
line 574). -/
def emotePassOneChain (input : VideoInput) (options : ProcessingOptions)
    (p : EncodeParams) : List FilterStage :=
  buildFilterChain input p.width p.height (p.fps : ℚ) options none

/-- The filter chain of `exportDiscordEmote` pass 2 (`gifFilter`, line 585). -/
def emotePassTwoChain (input : VideoInput) (options : ProcessingOptions)
    (p : EncodeParams) : List FilterStage :=
  buildFilterChain input p.width p.height (p.fps : ℚ) options none

/-- The filter chain of `export7TV` pass 1 (`paletteFilter`, line 649). -/
def sevenTVPassOneChain (input : VideoInput) (w h : ℤ)
    (options : ProcessingOptions) : List FilterStage :=
  buildFilterChain input w h (input.fps : ℚ) options none

/-- The filter chain of `export7TV` pass 2 (`gifFilter`, line 660). -/
def sevenTVPassTwoChain (input : VideoInput) (w h : ℤ)
    (options : ProcessingOptions) : List FilterStage :=
  buildFilterChain input w h (input.fps : ℚ) options none

/-- The filter chain built inline by `exportWebGIF` (lines 827–861): chroma
block, optional crop, a plain scale stage when a non-original resolution is
chosen, then `fps=input.fps`; the same `filterChain` variable feeds both
passes. -/
def webGifFilters (input : VideoInput) (targetWidth targetHeight : ℤ)
    (scaleToRes : Bool) (options : ProcessingOptions) : List FilterStage :=
  chromaFilters options.chromaKey
  ++ cropFilters options.crop
  ++ (if scaleToRes then [FilterStage.scaleExactStage targetWidth targetHeight] else [])
  ++ [FilterStage.fpsStage (input.fps : ℚ)]

/-- `sheetSize` of `exportVRCSpriteSheet` (line 683). -/
def vrcSheetSize : ℕ := 1024

/-- `maxFrames` of `exportVRCSpriteSheet` (line 684). -/
def vrcMaxFrames : ℕ := 64

/-- `Math.ceil(Math.sqrt(n))` on a natural number. -/
def ceilSqrt (n : ℕ) : ℕ := if n = 0 then 0 else Nat.sqrt (n - 1) + 1

/-- `sourceTotalFrames` of `exportVRCSpriteSheet` (line 687). -/
def vrcSourceTotalFrames (input : VideoInput) : ℤ :=
  ⌊input.duration * (input.fps : ℚ)⌋

/-- `totalFrames` of `exportVRCSpriteSheet` (line 694). -/
def vrcTotalFrames (input : VideoInput) : ℤ :=
  min (vrcSourceTotalFrames input) (vrcMaxFrames : ℤ)

/-- `gridSize` of `exportVRCSpriteSheet` (line 697). -/
def vrcGridSize (input : VideoInput) : ℕ :=
  ceilSqrt (vrcTotalFrames input).toNat

/-- `frameSize` of `exportVRCSpriteSheet` (line 698). -/
def vrcFrameSize (input : VideoInput) : ℕ :=
  vrcSheetSize / vrcGridSize input

/-- Whether the chroma-key block runs: `options.chromaKey?.enabled`. -/
def chromaOn (ck : Option ChromaKeyOptions) : Bool :=
  match ck with
  | some c => c.enabled
  | none => false

/-- The source's green-screen test (line 366): the lower-cased color
contains `00ff00` or `0f0`. -/
def greenKey (c : ChromaKeyOptions) : Bool :=
  strContains (jsToLower c.color) "00ff00" || strContains (jsToLower c.color) "0f0"

/-- The source's blue-screen test (line 369): the lower-cased color
contains `0000ff` or `00f`. -/
def blueKey (c : ChromaKeyOptions) : Bool :=
  strContains (jsToLower c.color) "0000ff" || strContains (jsToLower c.color) "00f"

/-! ### Helper lemmas -/

theorem fpsFilters_singleton (input : VideoInput) (t : ℚ) (mf : Option ℕ) :
    ∃ r, fpsFilters input t mf = [FilterStage.fpsStage r] := by
  unfold fpsFilters
  cases mf with
  | none => exact ⟨t, rfl⟩
  | some m => dsimp only; split_ifs <;> exact ⟨_, rfl⟩

/-- The frame-rate stage is always the last stage of the built chain. -/
theorem buildFilterChain_last (input : VideoInput) (tw th : ℤ) (t : ℚ)
    (options : ProcessingOptions) (mf : Option ℕ) :
    (buildFilterChain input tw th t options mf).getLast? =
      (fpsFilters input t mf).getLast? := by
  obtain ⟨r, hr⟩ := fpsFilters_singleton input t mf
  unfold buildFilterChain
  rw [hr, List.getLast?_append_cons]

/-- The loop index can only advance once per unit of fuel. -/
theorem sizeLoop_attempt_le (encoder : ℕ → EncodeParams → ℕ) (maxSize : ℕ)
    (degrade : EncodeParams → EncodeParams) :
    ∀ (fuel : ℕ) (p : EncodeParams) (attempt : ℕ),
      (sizeLoop encoder maxSize degrade p attempt fuel).1 ≤ attempt + fuel := by
  intro fuel
  induction fuel with
  | zero => intro p attempt; simp [sizeLoop]
  | succ n ih =>
    intro p attempt
    simp only [sizeLoop]
    split_ifs
    · show attempt + 1 ≤ attempt + (n + 1)
      omega
    · have := ih (degrade p) (attempt + 1); omega

/-- Under an encoder whose output never fits the budget, the loop never
reports success. -/
theorem sizeLoop_never_fits (encoder : ℕ → EncodeParams → ℕ) (maxSize : ℕ)
    (degrade : EncodeParams → EncodeParams)
    (h : ∀ a p, maxSize < encoder a p) :
    ∀ (fuel : ℕ) (p : EncodeParams) (attempt : ℕ),
      (sizeLoop encoder maxSize degrade p attempt fuel).2 = false := by
  intro fuel
  induction fuel with
  | zero => intro p attempt; rfl
  | succ n ih =>
    intro p attempt
    simp only [sizeLoop]
    rw [if_neg (Nat.not_le.mpr (h _ _))]
    exact ih (degrade p) (attempt + 1)

/-- Rounding `w * c` stays at or above 2 when `w ≥ 2` and `c ≥ 0.82`. -/
theorem two_le_jsRound_scale {w : ℤ} {c : ℚ} (hw : 2 ≤ w) (hc : 82/100 ≤ c) :
    2 ≤ jsRound ((w : ℚ) * c) := by
  unfold jsRound
  rw [Int.le_floor]
  have hw2 : (2 : ℚ) ≤ (w : ℚ) := by exact_mod_cast hw
  have h1 : (2 : ℚ) * (82/100) ≤ (w : ℚ) * c :=
    mul_le_mul hw2 hc (by norm_num) (by linarith)
  push_cast
  linarith

/-- The invariant the degradation ladders preserve: palette color count in
[2, 256] and both dimensions at or above the floor 2. -/
def paramsInv (p : EncodeParams) : Prop :=
  2 ≤ p.colors ∧ p.colors ≤ 256 ∧ 2 ≤ p.width ∧ 2 ≤ p.height

instance (p : EncodeParams) : Decidable (paramsInv p) :=
  inferInstanceAs
    (Decidable (2 ≤ p.colors ∧ p.colors ≤ 256 ∧ 2 ≤ p.width ∧ 2 ≤ p.height))

theorem stickerDegrade_inv {p : EncodeParams} (h : paramsInv p) :
    paramsInv (stickerDegrade p) := by
  obtain ⟨h1, h2, h3, h4⟩ := h
  have hw88 : 2 ≤ jsRound ((p.width : ℚ) * (88/100)) :=
    two_le_jsRound_scale h3 (by norm_num)
  have hh88 : 2 ≤ jsRound ((p.height : ℚ) * (88/100)) :=
    two_le_jsRound_scale h4 (by norm_num)
  have hw82 : 2 ≤ jsRound ((p.width : ℚ) * (82/100)) :=
    two_le_jsRound_scale h3 (by norm_num)
  have hh82 : 2 ≤ jsRound ((p.height : ℚ) * (82/100)) :=
    two_le_jsRound_scale h4 (by norm_num)
  unfold stickerDegrade paramsInv
  split_ifs <;> dsimp only <;>
    refine ⟨?_, ?_, ?_, ?_⟩ <;> first | assumption | omega

theorem emoteDegrade_inv {p : EncodeParams} (h : paramsInv p) :
    paramsInv (emoteDegrade p) := by
  obtain ⟨h1, h2, h3, h4⟩ := h
  have hw90 : 2 ≤ jsRound ((p.width : ℚ) * (9/10)) :=
    two_le_jsRound_scale h3 (by norm_num)
  have hh90 : 2 ≤ jsRound ((p.height : ℚ) * (9/10)) :=
    two_le_jsRound_scale h4 (by norm_num)
  have hw85 : 2 ≤ jsRound ((p.width : ℚ) * (85/100)) :=
    two_le_jsRound_scale h3 (by norm_num)
  have hh85 : 2 ≤ jsRound ((p.height : ℚ) * (85/100)) :=
    two_le_jsRound_scale h4 (by norm_num)
  unfold emoteDegrade paramsInv
  split_ifs <;> dsimp only <;>
    refine ⟨?_, ?_, ?_, ?_⟩ <;> first | assumption | omega

theorem ceilSqrt_spec (n : ℕ) (hn : 0 < n) :
    n ≤ ceilSqrt n ^ 2 ∧ (ceilSqrt n - 1) ^ 2 < n := by
  unfold ceilSqrt
  rw [if_neg (Nat.pos_iff_ne_zero.mp hn)]
  constructor
  · have h := Nat.lt_succ_sqrt' (n - 1)
    simp only [Nat.succ_eq_add_one] at h
    omega
  · have h := Nat.sqrt_le' (n - 1)
    have h2 : Nat.sqrt (n - 1) + 1 - 1 = Nat.sqrt (n - 1) := rfl
    rw [h2]
    omega

/-! ### Claim theorems -/

/-- C1: for every source with positive probed fps and duration and a
frame-count budget `m` in effect, the frame-rate stage appended (last) to
the filter chain is `min(targetFps, m / duration)` when
`floor(duration * fps)` exceeds `m`, and exactly `targetFps` when the
budget is already satisfied or when no budget applies. -/
theorem frameBudget_resample (input : VideoInput) (tw th : ℤ) (targetFps : ℚ)
    (options : ProcessingOptions) (m : ℕ)
    (hfps : 0 < input.fps) (hdur : 0 < input.duration) (hm : 0 < m) :
    ((m : ℤ) < ⌊input.duration * (input.fps : ℚ)⌋ →
      (buildFilterChain input tw th targetFps options (some m)).getLast? =
        some (FilterStage.fpsStage (min targetFps ((m : ℚ) / input.duration)))) ∧
    (⌊input.duration * (input.fps : ℚ)⌋ ≤ (m : ℤ) →
      (buildFilterChain input tw th targetFps options (some m)).getLast? =
        some (FilterStage.fpsStage targetFps)) ∧
    (buildFilterChain input tw th targetFps options none).getLast? =
      some (FilterStage.fpsStage targetFps) := by
  refine ⟨fun hgt => ?_, fun hle => ?_, ?_⟩
  · rw [buildFilterChain_last]
    unfold fpsFilters
    dsimp only
    rw [if_pos ⟨hm, hfps, hdur⟩, if_pos hgt]
    rfl
  · rw [buildFilterChain_last]
    unfold fpsFilters
    dsimp only
    rw [if_pos ⟨hm, hfps, hdur⟩, if_neg (Int.not_lt.mpr hle)]
    rfl
  · rw [buildFilterChain_last]
    rfl

/-- Witness for C1 at the spec's scenario: a 10-second source at 60 fps
under a 60-frame budget with requested rate 30 is resampled to
`min(30, 6) = 6`. -/
theorem frameBudget_resample_witness :
    (0 : ℤ) < 60 ∧ (0 : ℚ) < 10 ∧ (0 : ℕ) < 60 ∧
    (buildFilterChain ⟨60, 1920, 1080, 10⟩ 112 112 30 ⟨none, none⟩
        (some 60)).getLast? =
      some (FilterStage.fpsStage (min 30 ((60 : ℚ) / 10))) := by
  refine ⟨by norm_num, by norm_num, by norm_num, ?_⟩
  refine (frameBudget_resample ⟨60, 1920, 1080, 10⟩ 112 112 30 ⟨none, none⟩ 60
    (by norm_num) (by norm_num) (by norm_num)).1 ?_
  rw [Int.lt_iff_add_one_le, Int.le_floor]
  push_cast
  norm_num

/-- C2: for every encoder behavior (the encoder is an arbitrary function
from attempt index and parameters to the produced byte size, including one
whose output never shrinks) and every byte budget and seed, the sticker
optimization loop performs at most 15 attempts and the emote loop at most
10 attempts before terminating. -/
theorem optimizer_bounded_attempts (encoder : ℕ → EncodeParams → ℕ)
    (maxSize : ℕ) (pSticker pEmote : EncodeParams) :
    (sizeLoop encoder maxSize stickerDegrade pSticker 0 stickerMaxAttempts).1 ≤ 15 ∧
    (sizeLoop encoder maxSize emoteDegrade pEmote 0 emoteMaxAttempts).1 ≤ 10 := by
  constructor
  · simpa [stickerMaxAttempts] using
      sizeLoop_attempt_le encoder maxSize stickerDegrade 15 pSticker 0
  · simpa [emoteMaxAttempts] using
      sizeLoop_attempt_le encoder maxSize emoteDegrade 10 pEmote 0

/-- C3 counterexample: under an encoder whose output never fits any budget,
`exportDiscordEmote` exhausts its attempts yet completes without error
(the source only logs a warning, lines 630–631), so the orchestrator
records a result with `success = true` — not the failed `ExportResult`
the claim requires of every strict-budget platform. -/
theorem emoteExhaustion_success_cex :
    platformResult "Discord Emote"
        (exportDiscordEmote (fun _ _ => 1) 0 (emoteStart 30 128 128)) =
      { format := "Discord Emote", success := true, error := none } := by
  rfl

/-- C3 amended: under an encoder whose output never fits the budget,
`exportDiscordSticker` (only) fails with its descriptive message after its
attempts are exhausted, `exportDiscordEmote` completes without error, and
the orchestrator still produces every sibling platform's result around the
failed sticker entry. -/
theorem strictBudget_exhaustion (encoder : ℕ → EncodeParams → ℕ)
    (maxSize : ℕ) (pS pE : EncodeParams)
    (h : ∀ a p, maxSize < encoder a p) :
    exportDiscordSticker encoder maxSize pS = Except.error stickerFailMessage ∧
    exportDiscordEmote encoder maxSize pE = Except.ok () ∧
    ∀ before after : List (String × Except String Unit),
      processVideo (before ++
          ("discord-sticker", exportDiscordSticker encoder maxSize pS) :: after) =
        processVideo before ++
          { format := "discord-sticker", success := false,
            error := some stickerFailMessage } :: processVideo after := by
  have hfail : (sizeLoop encoder maxSize stickerDegrade pS 0 stickerMaxAttempts).2
      = false :=
    sizeLoop_never_fits encoder maxSize stickerDegrade h stickerMaxAttempts pS 0
  have hstick : exportDiscordSticker encoder maxSize pS
      = Except.error stickerFailMessage := by
    unfold exportDiscordSticker
    rcases hsz : sizeLoop encoder maxSize stickerDegrade pS 0 stickerMaxAttempts
      with ⟨a, b⟩
    rw [hsz] at hfail
    dsimp only at hfail
    subst hfail
    rfl
  refine ⟨hstick, rfl, fun before after => ?_⟩
  simp [processVideo, hstick, platformResult]

/-- Witness for C3 amended, with the never-fitting encoder stub
`fun _ _ => 1` against a zero byte budget. -/
theorem strictBudget_exhaustion_witness :
    (∀ a p, (0 : ℕ) < (fun (_ : ℕ) (_ : EncodeParams) => 1) a p) ∧
    exportDiscordSticker (fun _ _ => 1) 0 (stickerStart 30 320 320) =
      Except.error stickerFailMessage ∧
    exportDiscordEmote (fun _ _ => 1) 0 (emoteStart 30 128 128) =
      Except.ok () ∧
    processVideo [("discord-sticker",
        exportDiscordSticker (fun _ _ => 1) 0 (stickerStart 30 320 320))] =
      [{ format := "discord-sticker", success := false,
         error := some stickerFailMessage }] := by
  have h := strictBudget_exhaustion (fun _ _ => 1) 0 (stickerStart 30 320 320)
    (emoteStart 30 128 128) (fun _ _ => Nat.zero_lt_one)
  refine ⟨fun _ _ => Nat.zero_lt_one, h.1, h.2.1, ?_⟩
  simpa using h.2.2 [] []

/-- C4: for every starting parameter set satisfying the seeded invariant
(color count in [2,256], dimensions at or above the floor 2 — which every
platform seed does), applying the platform's degradation step any number of
times keeps the color count within [2,256] and both dimensions at or above
the positive floor 2. -/
theorem degradationLadder_invariant (n : ℕ) (pS pE : EncodeParams)
    (hS : paramsInv pS) (hE : paramsInv pE) :
    paramsInv (stickerDegrade^[n] pS) ∧ paramsInv (emoteDegrade^[n] pE) := by
  constructor
  · induction n with
    | zero => simpa using hS
    | succ k ih =>
      rw [Function.iterate_succ_apply']
      exact stickerDegrade_inv ih
  · induction n with
    | zero => simpa using hE
    | succ k ih =>
      rw [Function.iterate_succ_apply']
      exact emoteDegrade_inv ih

/-- Witness for C4 at the platform seeds (sticker 320×320, 192 colors,
fps capped at 10; emote 128×128, 128 colors, fps capped at 15), iterated
15 times. -/
theorem degradationLadder_invariant_witness :
    paramsInv (stickerStart 30 320 320) ∧ paramsInv (emoteStart 30 128 128) ∧
    paramsInv (stickerDegrade^[15] (stickerStart 30 320 320)) ∧
    paramsInv (emoteDegrade^[15] (emoteStart 30 128 128)) := by
  have h := degradationLadder_invariant 15 (stickerStart 30 320 320)
    (emoteStart 30 128 128) (by decide) (by decide)
  exact ⟨by decide, by decide, h.1, h.2⟩

/-- C9: the sprite-sheet assembler caps `frameCount` at
`min(totalSourceFrames, 64)`, takes `gridSize = ceil(sqrt(frameCount))`
(characterized: the least `g` with `frameCount ≤ g²`) and
`cellSize = floor(1024 / gridSize)`; concretely 64 frames give an 8×8 grid,
130 source frames are capped to 64 giving an 8×8 grid, and 10 frames give
a 4×4 grid. -/
theorem spriteSheet_geometry :
    (∀ n : ℕ, 0 < n → n ≤ ceilSqrt n ^ 2 ∧ (ceilSqrt n - 1) ^ 2 < n) ∧
    (∀ input : VideoInput,
        vrcTotalFrames input = min (vrcSourceTotalFrames input) 64 ∧
        vrcGridSize input = ceilSqrt (vrcTotalFrames input).toNat ∧
        vrcFrameSize input = 1024 / vrcGridSize input) ∧
    vrcTotalFrames ⟨10, 0, 0, 32/5⟩ = 64 ∧ vrcGridSize ⟨10, 0, 0, 32/5⟩ = 8 ∧
    vrcSourceTotalFrames ⟨10, 0, 0, 13⟩ = 130 ∧
    vrcTotalFrames ⟨10, 0, 0, 13⟩ = 64 ∧ vrcGridSize ⟨10, 0, 0, 13⟩ = 8 ∧
    vrcTotalFrames ⟨10, 0, 0, 1⟩ = 10 ∧ vrcGridSize ⟨10, 0, 0, 1⟩ = 4 := by
  have hA64 : vrcSourceTotalFrames ⟨10, 0, 0, 32/5⟩ = 64 := by
    simp only [vrcSourceTotalFrames]
    norm_num [Int.floor_eq_iff]
  have hB64 : vrcTotalFrames ⟨10, 0, 0, 32/5⟩ = 64 := by
    simp only [vrcTotalFrames, hA64, vrcMaxFrames]
    norm_num
  have hG64 : vrcGridSize ⟨10, 0, 0, 32/5⟩ = 8 := by
    simp only [vrcGridSize, hB64]
    rw [show (64 : ℤ).toNat = 64 from rfl]
    simp only [ceilSqrt]
    norm_num
  have hA130 : vrcSourceTotalFrames ⟨10, 0, 0, 13⟩ = 130 := by
    simp only [vrcSourceTotalFrames]
    norm_num [Int.floor_eq_iff]
  have hB130 : vrcTotalFrames ⟨10, 0, 0, 13⟩ = 64 := by
    simp only [vrcTotalFrames, hA130, vrcMaxFrames]
    norm_num
  have hG130 : vrcGridSize ⟨10, 0, 0, 13⟩ = 8 := by
    simp only [vrcGridSize, hB130]
    rw [show (64 : ℤ).toNat = 64 from rfl]
    simp only [ceilSqrt]
    norm_num
  have hA10 : vrcSourceTotalFrames ⟨10, 0, 0, 1⟩ = 10 := by
    simp only [vrcSourceTotalFrames]
    norm_num [Int.floor_eq_iff]
  have hB10 : vrcTotalFrames ⟨10, 0, 0, 1⟩ = 10 := by
    simp only [vrcTotalFrames, hA10, vrcMaxFrames]
    norm_num
  have hG10 : vrcGridSize ⟨10, 0, 0, 1⟩ = 4 := by
    simp only [vrcGridSize, hB10]
    rw [show (10 : ℤ).toNat = 10 from rfl]
    simp only [ceilSqrt]
    norm_num
  exact ⟨ceilSqrt_spec, fun input => ⟨rfl, rfl, rfl⟩,
    hB64, hG64, hA130, hB130, hG130, hB10, hG10⟩

/-- Witness for C9's grid-size characterization at `frameCount = 10`. -/
theorem spriteSheet_geometry_witness :
    0 < 10 ∧ (10 ≤ ceilSqrt 10 ^ 2 ∧ (ceilSqrt 10 - 1) ^ 2 < 10) :=
  ⟨by decide, spriteSheet_geometry.1 10 (by decide)⟩

/-- C5 counterexample: a probed source whose only stream reports
`r_frame_rate = 0/1` and `duration = 0` is accepted by `getVideoInfo`
(no metadata error is raised), and `buildFilterChain` still builds a chain
for it — contradicting the claim that such sources are rejected before any
filter chain is built. -/
theorem zeroMetadata_accepted_cex :
    getVideoInfo [⟨1920, 1080, 0, 1, 0⟩] =
      Except.ok ⟨0, 1920, 1080, 0⟩ ∧
    buildFilterChain ⟨0, 1920, 1080, 0⟩ 112 112 30 ⟨none, none⟩ (some 60) =
      [FilterStage.scaleFillStage 112 112, FilterStage.cropExactStage 112 112,
       FilterStage.fpsStage 30] := by
  constructor
  · simp only [getVideoInfo, jsRound, Except.ok.injEq, VideoInput.mk.injEq]
    norm_num [Int.floor_eq_iff]
  · norm_num [buildFilterChain, chromaFilters, cropFilters, fpsFilters]

/-- C5 amended: a source with `duration == 0` or `fps == 0` is NOT
rejected — probing accepts any non-empty stream list, and filter-chain
construction proceeds, skipping the frame-budget branch and emitting the
plain `fps=targetFps` stage. -/
theorem zeroMetadata_proceeds (input : VideoInput) (tw th : ℤ) (t : ℚ)
    (options : ProcessingOptions) (mf : Option ℕ)
    (h : input.duration = 0 ∨ input.fps = 0) :
    (∀ (s : ProbeStream) (rest : List ProbeStream),
        ∃ v, getVideoInfo (s :: rest) = Except.ok v) ∧
    (buildFilterChain input tw th t options mf).getLast? =
      some (FilterStage.fpsStage t) := by
  constructor
  · intro s rest
    exact ⟨_, rfl⟩
  · rw [buildFilterChain_last]
    unfold fpsFilters
    cases mf with
    | none => rfl
    | some m =>
      dsimp only
      have hneg : ¬(0 < m ∧ 0 < input.fps ∧ 0 < input.duration) := by
        rintro ⟨hm, hfps, hdur⟩
        rcases h with h | h
        · rw [h] at hdur; exact lt_irrefl 0 hdur
        · rw [h] at hfps; exact lt_irrefl 0 hfps
      rw [if_neg hneg]
      rfl

/-- Witness for C5 amended at a source with fps 0 and duration 0. -/
theorem zeroMetadata_proceeds_witness :
    ((⟨0, 1920, 1080, 0⟩ : VideoInput).duration = 0 ∨
      (⟨0, 1920, 1080, 0⟩ : VideoInput).fps = 0) ∧
    (buildFilterChain ⟨0, 1920, 1080, 0⟩ 112 112 30 ⟨none, none⟩
        (some 60)).getLast? = some (FilterStage.fpsStage 30) :=
  ⟨Or.inl rfl,
    (zeroMetadata_proceeds ⟨0, 1920, 1080, 0⟩ 112 112 30 ⟨none, none⟩ (some 60)
      (Or.inl rfl)).2⟩

/-- C6 counterexample: a crop region with negative width is not rejected —
the produced filter chain contains the malformed crop stage verbatim,
contradicting the claim that no such chain is ever produced. -/
theorem malformedCrop_cex :
    buildFilterChain ⟨30, 100, 100, 2⟩ 112 112 30
        ⟨none, some ⟨0, 0, -5, 50⟩⟩ none =
      [FilterStage.cropStage (-5) 50 0 0, FilterStage.scaleFillStage 112 112,
       FilterStage.cropExactStage 112 112, FilterStage.fpsStage 30] := by
  rfl

/-- C6 amended: filter-chain construction performs no crop validation —
every supplied crop region, including one with non-positive dimensions or
out-of-bounds coordinates, is inserted into the chain verbatim. -/
theorem crop_passthrough (input : VideoInput) (tw th : ℤ) (t : ℚ)
    (ck : Option ChromaKeyOptions) (c : CropOptions) (mf : Option ℕ) :
    FilterStage.cropStage c.width c.height c.x c.y ∈
      buildFilterChain input tw th t ⟨ck, some c⟩ mf := by
  unfold buildFilterChain cropFilters
  simp [List.mem_append]

/-- C7 counterexample: with chroma keying enabled on a red key color, the
chain contains the gamma/saturation `eq` stage but no despill stage, so
the "eq iff despill" biconditional fails. -/
theorem eqWithoutDespill_cex :
    FilterStage.eqStage ∈
      buildFilterChain ⟨30, 100, 100, 2⟩ 112 112 30
        ⟨some ⟨true, "#ff0000", 3/10, 1/10⟩, none⟩ none ∧
    FilterStage.despillStage DespillType.green ∉
      buildFilterChain ⟨30, 100, 100, 2⟩ 112 112 30
        ⟨some ⟨true, "#ff0000", 3/10, 1/10⟩, none⟩ none ∧
    FilterStage.despillStage DespillType.blue ∉
      buildFilterChain ⟨30, 100, 100, 2⟩ 112 112 30
        ⟨some ⟨true, "#ff0000", 3/10, 1/10⟩, none⟩ none := by
  have hgreen : (strContains (jsToLower "#ff0000") "00ff00" ||
      strContains (jsToLower "#ff0000") "0f0") = false := by decide
  have hblue : (strContains (jsToLower "#ff0000") "0000ff" ||
      strContains (jsToLower "#ff0000") "00f") = false := by decide
  refine ⟨?_, ?_, ?_⟩ <;>
    simp [buildFilterChain, chromaFilters, cropFilters, fpsFilters,
      hgreen, hblue]

/-- C7 amended: the `eq` gamma/saturation stage is present exactly when
chroma keying is enabled (whether or not a despill stage ran), and a
despill stage is present exactly when chroma keying is enabled and the key
color matches the green (respectively, not-green-but-blue) substring
test. -/
theorem eq_despill_stages (input : VideoInput) (tw th : ℤ) (t : ℚ)
    (ck : Option ChromaKeyOptions) (crop : Option CropOptions) (mf : Option ℕ) :
    (FilterStage.eqStage ∈ buildFilterChain input tw th t ⟨ck, crop⟩ mf ↔
      chromaOn ck = true) ∧
    (FilterStage.despillStage DespillType.green ∈
        buildFilterChain input tw th t ⟨ck, crop⟩ mf ↔
      ∃ c, ck = some c ∧ c.enabled = true ∧ greenKey c = true) ∧
    (FilterStage.despillStage DespillType.blue ∈
        buildFilterChain input tw th t ⟨ck, crop⟩ mf ↔
      ∃ c, ck = some c ∧ c.enabled = true ∧ greenKey c = false ∧
        blueKey c = true) := by
  obtain ⟨r, hr⟩ := fpsFilters_singleton input t mf
  unfold buildFilterChain
  rw [hr]
  cases ck with
  | none =>
    cases crop <;>
      simp [chromaFilters, cropFilters, chromaOn]
  | some c =>
    by_cases hen : c.enabled
    · rcases hg : strContains (jsToLower c.color) "00ff00" ||
          strContains (jsToLower c.color) "0f0" with _ | _
      · rcases hb : strContains (jsToLower c.color) "0000ff" ||
            strContains (jsToLower c.color) "00f" with _ | _
        · cases crop <;>
          · simp [chromaFilters, cropFilters, chromaOn, greenKey, blueKey,
              hen, hg, hb]
            exact ⟨by simpa using hg, fun _ _ => by simpa using hb⟩
        · cases crop <;>
          · simp [chromaFilters, cropFilters, chromaOn, greenKey, blueKey,
              hen, hg, hb]
            exact ⟨by simpa using hg, by simpa using hb⟩
      · cases crop <;>
        · simp [chromaFilters, cropFilters, chromaOn, greenKey, blueKey,
            hen, hg]
          exact ⟨by simpa using hg, fun h1 h2 => by simp [h1, h2] at hg⟩
    · cases crop <;>
        simp [chromaFilters, cropFilters, chromaOn, hen]

/-- C8 counterexample: the Discord-sticker palette-generation stage carries
only `max_colors` — it has no temporal-difference `stats_mode` parameter,
contradicting the claim that every platform's palette pass is parameterized
by both. -/
theorem stickerPalettegen_cex :
    (stickerPalettegenStage 192).statsDiff = false ∧
    twitchPalettegenStage.statsDiff = true := by
  exact ⟨rfl, rfl⟩

/-- C8 amended: for every platform and attempt, pass 1 and pass 2 use
identical filter chains; the palette-extraction stage is parameterized by
the current color count on all platforms, and by the temporal-difference
statistics mode on all platforms except Discord sticker, whose palettegen
stage omits it. -/
theorem paletteCodec_passes (input : VideoInput) (w h : ℤ) (t : ℚ)
    (options : ProcessingOptions) (mf : Option ℕ) (p : EncodeParams)
    (colors : ℤ) (scaleToRes : Bool) :
    twitchPassOneChain input w h t options mf =
      twitchPassTwoChain input w h t options mf ∧
    stickerPassOneChain input options p = stickerPassTwoChain input options p ∧
    emotePassOneChain input options p = emotePassTwoChain input options p ∧
    sevenTVPassOneChain input w h options = sevenTVPassTwoChain input w h options ∧
    webGifFilters input w h scaleToRes options =
      webGifFilters input w h scaleToRes options ∧
    twitchPalettegenStage.maxColors = 256 ∧
    twitchPalettegenStage.statsDiff = true ∧
    (stickerPalettegenStage colors).maxColors = colors ∧
    (stickerPalettegenStage colors).statsDiff = false ∧
    (emotePalettegenStage colors).maxColors = colors ∧
    (emotePalettegenStage colors).statsDiff = true ∧
    sevenTVPalettegenStage.statsDiff = true ∧
    webGifPalettegenStage.statsDiff = true :=
  ⟨rfl, rfl, rfl, rfl, rfl, rfl, rfl, rfl, rfl, rfl, rfl, rfl, rfl⟩

/-- C10: when chroma keying is enabled and similarity = 0 (respectively,
blend = 0), both the export filter chain and the single-frame preview
chain silently substitute the default — the chain's leading chromakey
stage carries 0.3 in place of a zero similarity and 0.1 in place of a
zero blend, whatever the other parameter is (the other parameter keeps
its own `||`-defaulted value). -/
theorem zeroSimilarityBlend_defaults (input : VideoInput) (tw th : ℤ) (t : ℚ)
    (c : ChromaKeyOptions) (crop : Option CropOptions) (mf : Option ℕ)
    (hen : c.enabled = true) :
    (c.similarity = 0 →
      (buildFilterChain input tw th t ⟨some c, crop⟩ mf).head? =
        some (FilterStage.chromakeyStage (jsReplaceFirst c.color "#" "0x")
          (3/10) (orDefault c.blend (1/10))) ∧
      (previewFilterChain tw th ⟨some c, crop⟩).head? =
        some (FilterStage.chromakeyStage (jsReplaceFirst c.color "#" "0x")
          (3/10) (orDefault c.blend (1/10)))) ∧
    (c.blend = 0 →
      (buildFilterChain input tw th t ⟨some c, crop⟩ mf).head? =
        some (FilterStage.chromakeyStage (jsReplaceFirst c.color "#" "0x")
          (orDefault c.similarity (3/10)) (1/10)) ∧
      (previewFilterChain tw th ⟨some c, crop⟩).head? =
        some (FilterStage.chromakeyStage (jsReplaceFirst c.color "#" "0x")
          (orDefault c.similarity (3/10)) (1/10))) := by
  have hb1 : (buildFilterChain input tw th t ⟨some c, crop⟩ mf).head? =
      some (FilterStage.chromakeyStage (jsReplaceFirst c.color "#" "0x")
        (orDefault c.similarity (3/10)) (orDefault c.blend (1/10))) := by
    unfold buildFilterChain chromaFilters
    dsimp only
    rw [if_pos hen]
    simp
  have hb2 : (previewFilterChain tw th ⟨some c, crop⟩).head? =
      some (FilterStage.chromakeyStage (jsReplaceFirst c.color "#" "0x")
        (orDefault c.similarity (3/10)) (orDefault c.blend (1/10))) := by
    unfold previewFilterChain chromaFilters
    dsimp only
    rw [if_pos hen]
    simp
  constructor
  · intro hs
    rw [hb1, hb2, hs]
    norm_num [orDefault]
  · intro hb
    rw [hb1, hb2, hb]
    norm_num [orDefault]

/-- Witness for C10 at the two single-zero cases: a green key with
similarity 0 and blend 0.5, and a blue key with similarity 0.5 and
blend 0 — in each, only the zero value is replaced by its default. -/
theorem zeroSimilarityBlend_defaults_witness :
    (⟨true, "#00ff00", 0, 1/2⟩ : ChromaKeyOptions).enabled = true ∧
    (⟨true, "#00ff00", 0, 1/2⟩ : ChromaKeyOptions).similarity = 0 ∧
    (buildFilterChain ⟨30, 100, 100, 2⟩ 112 112 30
        ⟨some ⟨true, "#00ff00", 0, 1/2⟩, none⟩ none).head? =
      some (FilterStage.chromakeyStage (jsReplaceFirst "#00ff00" "#" "0x")
        (3/10) (1/2)) ∧
    (previewFilterChain 112 112 ⟨some ⟨true, "#00ff00", 0, 1/2⟩, none⟩).head? =
      some (FilterStage.chromakeyStage (jsReplaceFirst "#00ff00" "#" "0x")
        (3/10) (1/2)) ∧
    (⟨true, "#0000ff", 1/2, 0⟩ : ChromaKeyOptions).enabled = true ∧
    (⟨true, "#0000ff", 1/2, 0⟩ : ChromaKeyOptions).blend = 0 ∧
    (buildFilterChain ⟨30, 100, 100, 2⟩ 112 112 30
        ⟨some ⟨true, "#0000ff", 1/2, 0⟩, none⟩ none).head? =
      some (FilterStage.chromakeyStage (jsReplaceFirst "#0000ff" "#" "0x")
        (1/2) (1/10)) ∧
    (previewFilterChain 112 112 ⟨some ⟨true, "#0000ff", 1/2, 0⟩, none⟩).head? =
      some (FilterStage.chromakeyStage (jsReplaceFirst "#0000ff" "#" "0x")
        (1/2) (1/10)) := by
  have hOr : orDefault (1/2 : ℚ) (1/10) = 1/2 := by norm_num [orDefault]
  have hOr2 : orDefault (1/2 : ℚ) (3/10) = 1/2 := by norm_num [orDefault]
  have h1 := (zeroSimilarityBlend_defaults ⟨30, 100, 100, 2⟩ 112 112 30
    ⟨true, "#00ff00", 0, 1/2⟩ none none rfl).1 rfl
  have h2 := (zeroSimilarityBlend_defaults ⟨30, 100, 100, 2⟩ 112 112 30
    ⟨true, "#0000ff", 1/2, 0⟩ none none rfl).2 rfl
  rw [hOr] at h1
  rw [hOr2] at h2
  exact ⟨rfl, rfl, h1.1, h1.2, rfl, rfl, h2.1, h2.2⟩

end Apnger
